import Mathlib

/-!
Verification of the signaling / chat core of the p2p-video-conference client,
a shallow embedding of `src/client/src/pages/Conference.tsx`.

Modelling conventions:
* Session descriptions and network candidates are treated as opaque strings.
* The component state (`ConfState`) collects the React state hooks of the
  `Conference` component (`chatMessages`, `chatContent`, `socket`,
  `peerConnection`), the `name` search parameter, plus two observation logs:
  `alerts` records every `alert(...)` call in call order, and `sent` records
  every envelope handed to `socket.send(...)` in call order.
* Browser calls with environment-chosen results are passed in as parameters:
  the result of `peerConnection.createAnswer()` is the `ans` argument of the
  handlers, and the outcome of `navigator.mediaDevices.getUserMedia` is the
  `media : Option MediaStream` argument of the setup effect (`none` models a
  thrown error: permission denied or no device).
* The source field `from` of `WSMessage` / `ChatMessage` is a Lean keyword,
  so it is named `sender` here. Everything else keeps the source's names.
-/

/-- Payload of a websocket message (`data: string | unknown` in the source).
`str` is a JSON string payload (the shape that `typeof data === "string"`
tests for); `sdp` is an object payload carrying a session description;
`ice` is an object payload carrying a network candidate; `other` is any
other payload shape. -/
inductive WSData where
  | str (s : String)
  | sdp (d : String)
  | ice (c : String)
  | other
deriving DecidableEq

/-- Type `WSMessage` of the source (lines 6-10): `{ type, from, data }`.
The optional `from` field is named `sender` (Lean keyword). -/
structure WSMessage where
  type : String
  sender : Option String
  data : WSData
deriving DecidableEq

/-- Type `ChatMessage` of the source (lines 12-15); `from` renamed `sender`. -/
structure ChatMessage where
  sender : String
  content : String
deriving DecidableEq

/-- Observable state of the browser's `RTCPeerConnection` object as the
component manipulates it: the remote and local session descriptions and the
list of candidates passed to `addIceCandidate`, in call order. -/
structure RTCPeerConnection where
  remoteDescription : Option String
  localDescription : Option String
  appliedCandidates : List String
deriving DecidableEq

/-- Browser call `pc.setRemoteDescription(new RTCSessionDescription(sdp))`. -/
def setRemoteDescription (pc : RTCPeerConnection) (sdp : String) : RTCPeerConnection :=
  { pc with remoteDescription := some sdp }

/-- Browser call `pc.setLocalDescription(sdp)`. -/
def setLocalDescription (pc : RTCPeerConnection) (sdp : String) : RTCPeerConnection :=
  { pc with localDescription := some sdp }

/-- Browser call `pc.addIceCandidate(c)`: the candidate is applied to the
connection at once (the source keeps no queue of its own). -/
def addIceCandidate (pc : RTCPeerConnection) (c : String) : RTCPeerConnection :=
  { pc with appliedCandidates := pc.appliedCandidates ++ [c] }

/-- The freshly constructed `new RTCPeerConnection(...)` of line 64: no
descriptions set, no candidates applied. -/
def newPeer : RTCPeerConnection :=
  { remoteDescription := none, localDescription := none, appliedCandidates := [] }

/-- The WebSocket object held in the `socket` state hook. `isOpen` is the
transport's readiness (readyState = OPEN); the source never reads it and
registers no `onopen` handler. -/
structure Socket where
  isOpen : Bool
deriving DecidableEq

/-- Local capture handle returned by `getUserMedia`; its contents are never
inspected by the core, only its presence matters. -/
structure MediaStream where
  id : Nat
deriving DecidableEq

/-- An outbound envelope handed to `socket.send(JSON.stringify(...))`.
Outbound envelopes of this component carry no `from` field. -/
structure OutMsg where
  type : String
  data : WSData
deriving DecidableEq

/-- The state of the `Conference` component. -/
structure ConfState where
  username : Option String
  socket : Option Socket
  chatMessages : List ChatMessage
  chatContent : String
  peerConnection : Option RTCPeerConnection
  alerts : List String
  sent : List OutMsg
deriving DecidableEq

/-- Effect of a call `alert(m)`: recorded in the `alerts` observation log. -/
def alertMsg (st : ConfState) (m : String) : ConfState :=
  { st with alerts := st.alerts ++ [m] }

/-- Effect of a call `socket.send(JSON.stringify(m))`: recorded in the `sent`
observation log. Delivery to the server is outside the component; the state
update is the same whether or not the frame is later delivered. -/
def socketSend (st : ConfState) (m : OutMsg) : ConfState :=
  { st with sent := st.sent ++ [m] }

/-- JavaScript truthiness of a `string | undefined` value: `undefined` and
the empty string are falsy. -/
def jsTruthy : Option String → Bool
  | none => false
  | some s => s != ""

/-- The test `typeof wsMessage.data === "string"` of line 125. -/
def isTextData : WSData → Bool
  | WSData.str _ => true
  | _ => false

/-- Value of a string payload (meaningful under `isTextData`). -/
def textOf : WSData → String
  | WSData.str s => s
  | _ => ""

/-- Value of a present sender field (meaningful under `jsTruthy`). -/
def senderOf : Option String → String
  | some s => s
  | none => ""

/-- The unchecked TS cast `wsMessage.data as RTCSessionDescriptionInit`
(lines 108, 111). For a payload of the expected shape it yields the carried
description; the claims only concern well-shaped payloads. -/
def castSdp : WSData → String
  | WSData.sdp d => d
  | _ => ""

/-- The unchecked TS cast `wsMessage.data as RTCIceCandidate` (line 114). -/
def castIce : WSData → String
  | WSData.ice c => c
  | _ => ""

/-- String coercion performed by `alert(wsMessage.data)` (line 117). -/
def dataToString : WSData → String
  | WSData.str s => s
  | WSData.sdp d => d
  | WSData.ice c => c
  | WSData.other => "[object Object]"

/-- Source `chatMessageHandler` (lines 124-135): if `wsMessage.from` is
truthy and `wsMessage.data` is a string, prepend the new chat message to the
log; otherwise alert about the invalid format. -/
def chatMessageHandler (st : ConfState) (msg : WSMessage) : ConfState :=
  if jsTruthy msg.sender && isTextData msg.data then
    { st with chatMessages :=
        { sender := senderOf msg.sender, content := textOf msg.data } :: st.chatMessages }
  else
    alertMsg st "Invalid wsMessage format"

/-- Source `handleSDPOffer` (lines 137-144). `ans` is the value the browser
returns from `peerConnection.createAnswer()`. Returns early when no peer
connection exists; otherwise sets the remote description to the offer, the
local description to the created answer, and hands one `sdp-answer` envelope
carrying the answer to `socket?.send` (a no-op when `socket` is undefined). -/
def handleSDPOffer (ans : String) (st : ConfState) (offer : String) : ConfState :=
  match st.peerConnection with
  | none => st
  | some pc =>
    let pc2 := setLocalDescription (setRemoteDescription pc offer) ans
    let st2 := { st with peerConnection := some pc2 }
    match st2.socket with
    | none => st2
    | some _ => socketSend st2 { type := "sdp-answer", data := WSData.sdp ans }

/-- Source `handleSDPAnswer` (lines 146-149): returns early when no peer
connection exists; otherwise sets the remote description to the answer. -/
def handleSDPAnswer (st : ConfState) (answer : String) : ConfState :=
  match st.peerConnection with
  | none => st
  | some pc => { st with peerConnection := some (setRemoteDescription pc answer) }

/-- Source `handleICECandidate` (lines 151-154): returns early when no peer
connection exists (the candidate is dropped); otherwise the candidate is
applied to the peer connection immediately via `addIceCandidate` — there is
no check of the remote description and no queue in the source. -/
def handleICECandidate (st : ConfState) (c : String) : ConfState :=
  match st.peerConnection with
  | none => st
  | some pc => { st with peerConnection := some (addIceCandidate pc c) }

/-- Source `wsMessageHandler` (lines 102-122): the switch on
`wsMessage.type`. `ans` is the browser's `createAnswer` result, used only on
the `sdp-offer` branch. -/
def wsMessageHandler (ans : String) (st : ConfState) (msg : WSMessage) : ConfState :=
  if msg.type = "chat" then chatMessageHandler st msg
  else if msg.type = "sdp-offer" then handleSDPOffer ans st (castSdp msg.data)
  else if msg.type = "sdp-answer" then handleSDPAnswer st (castSdp msg.data)
  else if msg.type = "ice" then handleICECandidate st (castIce msg.data)
  else if msg.type = "error" then alertMsg st (dataToString msg.data)
  else alertMsg st "Invalid websocket message received"

/-- Source `sendChat` (lines 156-170): alert and stop if the socket is not
mounted or the `name` parameter is falsy; otherwise build the chat message,
send a `chat` envelope, prepend the message to the local log, and clear the
input. The log update does not depend on any response from the server. -/
def sendChat (st : ConfState) : ConfState :=
  if st.socket = none then alertMsg st "Socket was not mounted"
  else if !(jsTruthy st.username) then alertMsg st "name parameter not passed"
  else
    let newChat : ChatMessage := { sender := senderOf st.username, content := st.chatContent }
    let st2 := socketSend st { type := "chat", data := WSData.str st.chatContent }
    { st2 with chatMessages := newChat :: st2.chatMessages, chatContent := "" }

/-- Source `getLocalMediaStream` (lines 88-100). `media` is the outcome of
the environment call `getUserMedia` (`none` models the thrown error). On
failure the catch block alerts and the function returns `undefined`. -/
def getLocalMediaStream (st : ConfState) (media : Option MediaStream) :
    ConfState × Option MediaStream :=
  match media with
  | some s => (st, some s)
  | none => (alertMsg st "Could not access media devices.", none)

/-- Source effect on `[socket]` (lines 56-85): returns at once when the
socket state is unset; otherwise acquires local media — aborting when that
fails — and only then constructs the `RTCPeerConnection` and stores it.
The socket's open state is never consulted. -/
def setupPeerEffect (st : ConfState) (media : Option MediaStream) : ConfState :=
  match st.socket with
  | none => st
  | some _ =>
    let p := getLocalMediaStream st media
    match p.2 with
    | none => p.1
    | some _ => { p.1 with peerConnection := some newPeer }

/-- One scheduler step of the component. `mount` is the mount effect of
lines 29-53: it constructs the WebSocket — which starts in the CONNECTING
state, so not yet open — and stores it with `setSocket`. `sockOpen` is the
transport's later open event (for which the source registers no handler).
`setup` is the effect on `[socket]`, `recv` a delivery of one inbound
envelope to `wsMessageHandler`, and `send` a click on the Send button. -/
inductive ConfAction where
  | mount
  | sockOpen
  | setup (media : Option MediaStream)
  | recv (ans : String) (msg : WSMessage)
  | send
deriving DecidableEq

/-- Effect of one `ConfAction` on the component state. -/
def stepAction (st : ConfState) : ConfAction → ConfState
  | ConfAction.mount => { st with socket := some { isOpen := false } }
  | ConfAction.sockOpen => { st with socket := st.socket.map (fun _ => { isOpen := true }) }
  | ConfAction.setup media => setupPeerEffect st media
  | ConfAction.recv ans msg => wsMessageHandler ans st msg
  | ConfAction.send => sendChat st

/-- Run a sequence of actions from a state, in order. -/
def runActions (st : ConfState) (acts : List ConfAction) : ConfState :=
  acts.foldl stepAction st

/-- Component state at first render: `user` is the `name` search parameter;
every hook is at its initial value. -/
def initState (user : Option String) : ConfState :=
  { username := user, socket := none, chatMessages := [], chatContent := "",
    peerConnection := none, alerts := [], sent := [] }

/-- Sample peer connection used to instantiate the theorems below. -/
def demoPC : RTCPeerConnection :=
  { remoteDescription := none, localDescription := none, appliedCandidates := ["c0"] }

/-- Sample component state with a mounted, open socket, a user name, one
pending input text and an existing peer connection. -/
def demoState : ConfState :=
  { username := some "alice", socket := some { isOpen := true }, chatMessages := [],
    chatContent := "hello", peerConnection := some demoPC, alerts := [], sent := [] }

theorem jsTruthy_some {s : String} (h : s ≠ "") : jsTruthy (some s) = true := by
  simp [jsTruthy, h]

theorem alertMsg_chatMessages (st : ConfState) (m : String) :
    (alertMsg st m).chatMessages = st.chatMessages := rfl

theorem alertMsg_alerts (st : ConfState) (m : String) :
    (alertMsg st m).alerts = st.alerts ++ [m] := rfl

theorem handleSDPOffer_chatMessages (ans offer : String) (st : ConfState) :
    (handleSDPOffer ans st offer).chatMessages = st.chatMessages := by
  rcases hp : st.peerConnection with _ | pc <;>
  rcases hs : st.socket with _ | s <;>
  simp [handleSDPOffer, hp, hs, socketSend]

theorem handleSDPAnswer_chatMessages (answer : String) (st : ConfState) :
    (handleSDPAnswer st answer).chatMessages = st.chatMessages := by
  rcases hp : st.peerConnection with _ | pc <;> simp [handleSDPAnswer, hp]

theorem handleICECandidate_chatMessages (c : String) (st : ConfState) :
    (handleICECandidate st c).chatMessages = st.chatMessages := by
  rcases hp : st.peerConnection with _ | pc <;> simp [handleICECandidate, hp]

theorem setupPeerEffect_chatMessages (st : ConfState) (media : Option MediaStream) :
    (setupPeerEffect st media).chatMessages = st.chatMessages := by
  rcases hs : st.socket with _ | s <;> cases media <;>
  simp [setupPeerEffect, hs, getLocalMediaStream, alertMsg]

theorem wsMessageHandler_chat_shape (ans : String) (st : ConfState) (msg : WSMessage) :
    (wsMessageHandler ans st msg).chatMessages = st.chatMessages ∨
    ∃ m, (wsMessageHandler ans st msg).chatMessages = m :: st.chatMessages := by
  unfold wsMessageHandler
  by_cases h1 : msg.type = "chat"
  · rw [if_pos h1]
    unfold chatMessageHandler
    by_cases hc : (jsTruthy msg.sender && isTextData msg.data) = true
    · rw [if_pos hc]; right; exact ⟨_, rfl⟩
    · rw [if_neg hc]; left; rfl
  · rw [if_neg h1]
    by_cases h2 : msg.type = "sdp-offer"
    · rw [if_pos h2]; left; exact handleSDPOffer_chatMessages ans (castSdp msg.data) st
    · rw [if_neg h2]
      by_cases h3 : msg.type = "sdp-answer"
      · rw [if_pos h3]; left; exact handleSDPAnswer_chatMessages (castSdp msg.data) st
      · rw [if_neg h3]
        by_cases h4 : msg.type = "ice"
        · rw [if_pos h4]; left; exact handleICECandidate_chatMessages (castIce msg.data) st
        · rw [if_neg h4]
          by_cases h5 : msg.type = "error"
          · rw [if_pos h5]; left; rfl
          · rw [if_neg h5]; left; rfl

theorem sendChat_chat_shape (st : ConfState) :
    (sendChat st).chatMessages = st.chatMessages ∨
    ∃ m, (sendChat st).chatMessages = m :: st.chatMessages := by
  unfold sendChat
  by_cases h1 : st.socket = none
  · rw [if_pos h1]; left; rfl
  · rw [if_neg h1]
    by_cases h2 : (!jsTruthy st.username) = true
    · rw [if_pos h2]; left; rfl
    · rw [if_neg h2]; right; exact ⟨_, rfl⟩

theorem stepAction_chat_shape (st : ConfState) (a : ConfAction) :
    (stepAction st a).chatMessages = st.chatMessages ∨
    ∃ m, (stepAction st a).chatMessages = m :: st.chatMessages := by
  cases a with
  | mount => left; rfl
  | sockOpen => left; rfl
  | setup media => left; exact setupPeerEffect_chatMessages st media
  | recv ans msg => exact wsMessageHandler_chat_shape ans st msg
  | send => exact sendChat_chat_shape st

theorem mem_chat_stepAction (st : ConfState) (a : ConfAction) (m : ChatMessage)
    (h : m ∈ st.chatMessages) : m ∈ (stepAction st a).chatMessages := by
  rcases stepAction_chat_shape st a with he | ⟨m2, he⟩ <;> rw [he]
  · exact h
  · exact List.mem_cons_of_mem m2 h

theorem mem_chat_runActions (acts : List ConfAction) (st : ConfState) (m : ChatMessage)
    (h : m ∈ st.chatMessages) : m ∈ (runActions st acts).chatMessages := by
  induction acts generalizing st with
  | nil => exact h
  | cons a rest ih =>
    simp only [runActions, List.foldl]
    exact ih (stepAction st a) (mem_chat_stepAction st a m h)

/-- C1: the claim states that candidates received while the peer connection
has no remote description are enqueued, never applied before the remote
description is set, and applied FIFO afterwards. The source keeps no queue:
`handleICECandidate` calls `peerConnection.addIceCandidate` immediately.
This theorem evaluates the code at the failing input — an `ice` envelope
delivered after the peer connection is created (remote description still
unset): the candidate is applied at once, while the remote description is
still `none`; and a candidate delivered before the peer connection exists
is dropped outright (state unchanged), never applied later. -/
theorem C1_candidate_applied_before_remote :
    newPeer.remoteDescription = none ∧
    (wsMessageHandler "a" { initState (some "alice") with peerConnection := some newPeer }
        { type := "ice", sender := none, data := WSData.ice "c1" }).peerConnection =
      some { remoteDescription := none, localDescription := none,
             appliedCandidates := ["c1"] } ∧
    wsMessageHandler "a" (initState (some "alice"))
        { type := "ice", sender := none, data := WSData.ice "c1" } =
      initState (some "alice") :=
  ⟨rfl, rfl, rfl⟩

/-- C2: an `sdp-offer` envelope handled with an existing peer connection
(and, as always holds when a peer connection exists, a mounted socket) sets
the remote description to the received offer, sets the local description to
the created answer `ans`, and appends exactly one `sdp-answer` envelope
carrying that answer to the outbound channel; the chat log and alerts are
untouched. -/
theorem C2_offer_flow (ans offer : String) (st : ConfState) (pc : RTCPeerConnection)
    (s : Socket) (hp : st.peerConnection = some pc) (hs : st.socket = some s) :
    (wsMessageHandler ans st
        { type := "sdp-offer", sender := none, data := WSData.sdp offer }).peerConnection =
      some { remoteDescription := some offer, localDescription := some ans,
             appliedCandidates := pc.appliedCandidates } ∧
    (wsMessageHandler ans st
        { type := "sdp-offer", sender := none, data := WSData.sdp offer }).sent =
      st.sent ++ [{ type := "sdp-answer", data := WSData.sdp ans }] ∧
    (wsMessageHandler ans st
        { type := "sdp-offer", sender := none, data := WSData.sdp offer }).chatMessages =
      st.chatMessages ∧
    (wsMessageHandler ans st
        { type := "sdp-offer", sender := none, data := WSData.sdp offer }).alerts =
      st.alerts := by
  refine ⟨?_, ?_, ?_, ?_⟩ <;>
  simp [wsMessageHandler, handleSDPOffer, hp, hs, castSdp, socketSend,
        setRemoteDescription, setLocalDescription]

/-- Witness for C2 at a concrete state. -/
theorem C2_offer_flow_witness :
    demoState.peerConnection = some demoPC ∧
    demoState.socket = some { isOpen := true } ∧
    ((wsMessageHandler "a1" demoState
        { type := "sdp-offer", sender := none, data := WSData.sdp "o1" }).peerConnection =
      some { remoteDescription := some "o1", localDescription := some "a1",
             appliedCandidates := demoPC.appliedCandidates } ∧
    (wsMessageHandler "a1" demoState
        { type := "sdp-offer", sender := none, data := WSData.sdp "o1" }).sent =
      demoState.sent ++ [{ type := "sdp-answer", data := WSData.sdp "a1" }] ∧
    (wsMessageHandler "a1" demoState
        { type := "sdp-offer", sender := none, data := WSData.sdp "o1" }).chatMessages =
      demoState.chatMessages ∧
    (wsMessageHandler "a1" demoState
        { type := "sdp-offer", sender := none, data := WSData.sdp "o1" }).alerts =
      demoState.alerts) :=
  ⟨rfl, rfl, C2_offer_flow "a1" "o1" demoState demoPC { isOpen := true } rfl rfl⟩

/-- C3 counterexample: an envelope whose type tag is the literal `offer`
(the tag the claim names) is NOT dispatched to the offer handler: the peer
connection is left untouched (a dispatched offer would have set its remote
description) and the router instead raises the invalid-message alert. The
code's tags are `sdp-offer`, `sdp-answer` and `ice`, not `offer`, `answer`
and `candidate`. -/
theorem C3_offer_tag_rejected :
    (wsMessageHandler "a" { initState (some "alice") with peerConnection := some newPeer }
        { type := "offer", sender := none, data := WSData.sdp "o" }).peerConnection =
      some newPeer ∧
    (wsMessageHandler "a" { initState (some "alice") with peerConnection := some newPeer }
        { type := "offer", sender := none, data := WSData.sdp "o" }).alerts =
      ["Invalid websocket message received"] :=
  ⟨rfl, rfl⟩

/-- C3 (amended): the router dispatches strictly by the type tag drawn from
the closed set `chat`, `sdp-offer`, `sdp-answer`, `ice`, `error` — `sdp-offer`
to the offer handler, `sdp-answer` to the answer handler, `ice` to the
candidate handler, `chat` to the chat handler, `error` to a user alert —
and every envelope whose type is outside this set is rejected with the
invalid-message alert. -/
theorem C3_dispatch_amended (ans : String) (st : ConfState) (msg : WSMessage) :
    (msg.type = "chat" → wsMessageHandler ans st msg = chatMessageHandler st msg) ∧
    (msg.type = "sdp-offer" →
      wsMessageHandler ans st msg = handleSDPOffer ans st (castSdp msg.data)) ∧
    (msg.type = "sdp-answer" →
      wsMessageHandler ans st msg = handleSDPAnswer st (castSdp msg.data)) ∧
    (msg.type = "ice" →
      wsMessageHandler ans st msg = handleICECandidate st (castIce msg.data)) ∧
    (msg.type = "error" →
      wsMessageHandler ans st msg = alertMsg st (dataToString msg.data)) ∧
    (msg.type ∉ (["chat", "sdp-offer", "sdp-answer", "ice", "error"] : List String) →
      wsMessageHandler ans st msg = alertMsg st "Invalid websocket message received") := by
  refine ⟨?_, ?_, ?_, ?_, ?_, ?_⟩ <;> intro h
  · simp [wsMessageHandler, h]
  · simp [wsMessageHandler, h]
  · simp [wsMessageHandler, h]
  · simp [wsMessageHandler, h]
  · simp [wsMessageHandler, h]
  · simp only [List.mem_cons, List.not_mem_nil, or_false, not_or] at h
    obtain ⟨h1, h2, h3, h4, h5⟩ := h
    simp [wsMessageHandler, h1, h2, h3, h4, h5]

/-- Witness for C3 at a concrete unrecognized tag. -/
theorem C3_dispatch_witness :
    ("ping" : String) ∉ (["chat", "sdp-offer", "sdp-answer", "ice", "error"] : List String) ∧
    wsMessageHandler "a" demoState { type := "ping", sender := none, data := WSData.other } =
      alertMsg demoState "Invalid websocket message received" :=
  ⟨by decide,
   (C3_dispatch_amended "a" demoState
      { type := "ping", sender := none, data := WSData.other }).2.2.2.2.2 (by decide)⟩

/-- C4: two chat envelopes received from the channel carrying messages A and
B, followed by a locally sent message C, leave the log in newest-first order
C, B, A in front of the previous log: every append prepends. -/
theorem C4_chat_order (ans1 ans2 : String) (st : ConfState) (s : Socket)
    (user fa ca fb cb : String)
    (hs : st.socket = some s) (hu : st.username = some user) (hne : user ≠ "")
    (ha : fa ≠ "") (hb : fb ≠ "") :
    (runActions st
        [ConfAction.recv ans1 { type := "chat", sender := some fa, data := WSData.str ca },
         ConfAction.recv ans2 { type := "chat", sender := some fb, data := WSData.str cb },
         ConfAction.send]).chatMessages =
      { sender := user, content := st.chatContent } ::
        { sender := fb, content := cb } ::
          { sender := fa, content := ca } :: st.chatMessages := by
  simp [runActions, stepAction, wsMessageHandler, chatMessageHandler, jsTruthy, isTextData,
        senderOf, textOf, sendChat, socketSend, alertMsg, hs, hu, hne, ha, hb]

/-- Witness for C4 at a concrete state and concrete messages. -/
theorem C4_chat_order_witness :
    demoState.socket = some { isOpen := true } ∧ demoState.username = some "alice" ∧
    ("alice" : String) ≠ "" ∧ ("bob" : String) ≠ "" ∧ ("carol" : String) ≠ "" ∧
    (runActions demoState
        [ConfAction.recv "x" { type := "chat", sender := some "bob", data := WSData.str "A" },
         ConfAction.recv "y" { type := "chat", sender := some "carol", data := WSData.str "B" },
         ConfAction.send]).chatMessages =
      { sender := "alice", content := demoState.chatContent } ::
        { sender := "carol", content := "B" } ::
          { sender := "bob", content := "A" } :: demoState.chatMessages :=
  ⟨rfl, rfl, by decide, by decide, by decide,
   C4_chat_order "x" "y" demoState { isOpen := true } "alice" "bob" "A" "carol" "B"
     rfl rfl (by decide) (by decide) (by decide)⟩

/-- C5 counterexample: the mount effect stores the WebSocket while it is
still connecting (not yet open), the `[socket]` effect then runs, acquires
media and creates the peer connection — before the transport ever reports
itself open. After `mount` followed by `setup` with media available, the
peer connection exists while the socket is still not open. -/
theorem C5_peer_created_before_open :
    (runActions (initState (some "alice"))
        [ConfAction.mount, ConfAction.setup (some { id := 0 })]).peerConnection =
      some newPeer ∧
    (runActions (initState (some "alice"))
        [ConfAction.mount, ConfAction.setup (some { id := 0 })]).socket =
      some { isOpen := false } :=
  ⟨rfl, rfl⟩

/-- C5 (amended): starting from a state with no peer connection, the setup
effect creates one only if the socket state is set and media acquisition
succeeded; when media acquisition fails no peer connection is created, and
when the socket is unset the effect is a no-op. (The effect does not wait
for the channel to report itself open.) -/
theorem C5_media_gate (st : ConfState) (media : Option MediaStream)
    (h : st.peerConnection = none) :
    ((setupPeerEffect st media).peerConnection ≠ none → st.socket ≠ none ∧ media ≠ none) ∧
    (media = none → (setupPeerEffect st media).peerConnection = none) ∧
    (st.socket = none → setupPeerEffect st media = st) := by
  rcases hs : st.socket with _ | s <;> cases media <;>
  simp [setupPeerEffect, hs, getLocalMediaStream, alertMsg, h]

/-- Witness for C5 at a concrete state with failing media acquisition. -/
theorem C5_media_gate_witness :
    (initState (some "alice")).peerConnection = none ∧
    (setupPeerEffect { initState (some "alice") with socket := some { isOpen := true } }
        none).peerConnection = none :=
  ⟨rfl,
   (C5_media_gate { initState (some "alice") with socket := some { isOpen := true } }
      none rfl).2.1 rfl⟩

/-- C6: an envelope whose type tag lies outside the closed set handled by
the router is reported to the user via the invalid-message alert, and both
the chat log and the peer-connection state (and the outbound channel) are
left unchanged. -/
theorem C6_unrecognized_type_frame (ans : String) (st : ConfState) (msg : WSMessage)
    (h : msg.type ∉ (["chat", "sdp-offer", "sdp-answer", "ice", "error"] : List String)) :
    (wsMessageHandler ans st msg).chatMessages = st.chatMessages ∧
    (wsMessageHandler ans st msg).peerConnection = st.peerConnection ∧
    (wsMessageHandler ans st msg).sent = st.sent ∧
    (wsMessageHandler ans st msg).alerts =
      st.alerts ++ ["Invalid websocket message received"] := by
  simp only [List.mem_cons, List.not_mem_nil, or_false, not_or] at h
  obtain ⟨h1, h2, h3, h4, h5⟩ := h
  refine ⟨?_, ?_, ?_, ?_⟩ <;> simp [wsMessageHandler, h1, h2, h3, h4, h5, alertMsg]

/-- Witness for C6 at the envelope with type tag ping. -/
theorem C6_unrecognized_type_witness :
    ("ping" : String) ∉ (["chat", "sdp-offer", "sdp-answer", "ice", "error"] : List String) ∧
    ((wsMessageHandler "a" demoState
        { type := "ping", sender := none, data := WSData.other }).chatMessages =
      demoState.chatMessages ∧
    (wsMessageHandler "a" demoState
        { type := "ping", sender := none, data := WSData.other }).peerConnection =
      demoState.peerConnection ∧
    (wsMessageHandler "a" demoState
        { type := "ping", sender := none, data := WSData.other }).sent = demoState.sent ∧
    (wsMessageHandler "a" demoState
        { type := "ping", sender := none, data := WSData.other }).alerts =
      demoState.alerts ++ ["Invalid websocket message received"]) :=
  ⟨by decide,
   C6_unrecognized_type_frame "a" demoState
     { type := "ping", sender := none, data := WSData.other } (by decide)⟩

/-- C7: a chat envelope missing a required field (absent sender, or payload
that is not text) is reported via the invalid-format alert and dropped
without modifying the chat log, and a subsequent well-formed chat envelope
on the channel is still appended on top of the unchanged log. -/
theorem C7_malformed_chat_dropped (ans : String) (st : ConfState) (msg : WSMessage)
    (htype : msg.type = "chat")
    (hbad : msg.sender = none ∨ isTextData msg.data = false) :
    wsMessageHandler ans st msg = alertMsg st "Invalid wsMessage format" ∧
    (wsMessageHandler ans st msg).chatMessages = st.chatMessages ∧
    (wsMessageHandler ans st msg).alerts = st.alerts ++ ["Invalid wsMessage format"] ∧
    (∀ ans2 s2 c2 : String, s2 ≠ "" →
      (wsMessageHandler ans2 (wsMessageHandler ans st msg)
          { type := "chat", sender := some s2, data := WSData.str c2 }).chatMessages =
        { sender := s2, content := c2 } :: st.chatMessages) := by
  have hmain : wsMessageHandler ans st msg = alertMsg st "Invalid wsMessage format" := by
    rcases hbad with hb | hb
    · simp [wsMessageHandler, htype, chatMessageHandler, hb, jsTruthy]
    · simp [wsMessageHandler, htype, chatMessageHandler, hb]
  refine ⟨hmain, by rw [hmain]; rfl, by rw [hmain]; rfl, ?_⟩
  intro ans2 s2 c2 hs2
  rw [hmain]
  simp [wsMessageHandler, chatMessageHandler, jsTruthy_some hs2, isTextData,
        senderOf, textOf, alertMsg]

/-- Witness for C7 at a chat envelope with an absent sender. -/
theorem C7_malformed_chat_witness :
    ((({ type := "chat", sender := none, data := WSData.str "hi" } : WSMessage).type = "chat") ∧
     (({ type := "chat", sender := none, data := WSData.str "hi" } : WSMessage).sender = none ∨
       isTextData ({ type := "chat", sender := none, data := WSData.str "hi" } : WSMessage).data
         = false)) ∧
    wsMessageHandler "a" demoState { type := "chat", sender := none, data := WSData.str "hi" } =
      alertMsg demoState "Invalid wsMessage format" ∧
    ("bob" : String) ≠ "" ∧
    (wsMessageHandler "b"
        (wsMessageHandler "a" demoState
          { type := "chat", sender := none, data := WSData.str "hi" })
        { type := "chat", sender := some "bob", data := WSData.str "yo" }).chatMessages =
      { sender := "bob", content := "yo" } :: demoState.chatMessages :=
  ⟨⟨rfl, Or.inl rfl⟩,
   (C7_malformed_chat_dropped "a" demoState
      { type := "chat", sender := none, data := WSData.str "hi" } rfl (Or.inl rfl)).1,
   by decide,
   (C7_malformed_chat_dropped "a" demoState
      { type := "chat", sender := none, data := WSData.str "hi" } rfl (Or.inl rfl)).2.2.2
     "b" "bob" "yo" (by decide)⟩

/-- C8: with a mounted socket and a present user name, the send path builds
the chat message locally, prepends it to the log in the same step as the
transmission (no acknowledgment is awaited — the state update does not
depend on any inbound response), hands exactly one `chat` envelope to the
channel, and no sequence of subsequent operations of the component ever
removes the appended message from the log. -/
theorem C8_optimistic_send (st : ConfState) (s : Socket) (user : String)
    (hs : st.socket = some s) (hu : st.username = some user) (hne : user ≠ "") :
    (sendChat st).chatMessages =
      { sender := user, content := st.chatContent } :: st.chatMessages ∧
    (sendChat st).sent = st.sent ++ [{ type := "chat", data := WSData.str st.chatContent }] ∧
    (∀ acts : List ConfAction,
      { sender := user, content := st.chatContent } ∈
        (runActions (sendChat st) acts).chatMessages) := by
  have h1 : (sendChat st).chatMessages =
      { sender := user, content := st.chatContent } :: st.chatMessages := by
    simp [sendChat, hs, hu, jsTruthy_some hne, senderOf, socketSend]
  refine ⟨h1, ?_, ?_⟩
  · simp [sendChat, hs, hu, jsTruthy_some hne, senderOf, socketSend]
  · intro acts
    exact mem_chat_runActions acts (sendChat st) _ (h1 ▸ List.mem_cons_self _ _)

/-- Witness for C8 at a concrete state and a concrete later schedule. -/
theorem C8_optimistic_send_witness :
    demoState.socket = some { isOpen := true } ∧
    demoState.username = some "alice" ∧ ("alice" : String) ≠ "" ∧
    { sender := "alice", content := "hello" } ∈
      (runActions (sendChat demoState)
        [ConfAction.sockOpen,
         ConfAction.recv "a" { type := "chat", sender := some "bob", data := WSData.str "B" },
         ConfAction.recv "a" { type := "nonsense", sender := none, data := WSData.other }]).chatMessages :=
  ⟨rfl, rfl, by decide,
   (C8_optimistic_send demoState { isOpen := true } "alice" rfl rfl (by decide)).2.2
     [ConfAction.sockOpen,
      ConfAction.recv "a" { type := "chat", sender := some "bob", data := WSData.str "B" },
      ConfAction.recv "a" { type := "nonsense", sender := none, data := WSData.other }]⟩

/-- C9: an `sdp-answer` envelope handled with an existing peer connection
sets the remote description to the received answer and changes nothing
else: the resulting state is the old state with only that one field of the
peer connection replaced — the chat log, the outbound channel, the alerts,
the local description and the applied candidates are all untouched, and no
envelope is transmitted. -/
theorem C9_answer_frame (ans sdp : String) (st : ConfState) (pc : RTCPeerConnection)
    (hp : st.peerConnection = some pc) :
    wsMessageHandler ans st { type := "sdp-answer", sender := none, data := WSData.sdp sdp } =
      { st with peerConnection := some { pc with remoteDescription := some sdp } } := by
  simp [wsMessageHandler, handleSDPAnswer, hp, castSdp, setRemoteDescription]

/-- Witness for C9 at a concrete state. -/
theorem C9_answer_frame_witness :
    demoState.peerConnection = some demoPC ∧
    wsMessageHandler "a" demoState
        { type := "sdp-answer", sender := none, data := WSData.sdp "ans1" } =
      { demoState with peerConnection := some { demoPC with remoteDescription := some "ans1" } } :=
  ⟨rfl, C9_answer_frame "a" "ans1" demoState demoPC rfl⟩

/-- C10: the chat log is append-only and monotone — every operation of the
component (mount, the transport's open event, the setup effect, delivery of
any inbound envelope, and the local send path) either prepends exactly one
new message to the log or leaves it unchanged; no operation removes,
reorders or rewrites an existing message. -/
theorem C10_chatlog_monotone (st : ConfState) (a : ConfAction) :
    (stepAction st a).chatMessages = st.chatMessages ∨
    ∃ m, (stepAction st a).chatMessages = m :: st.chatMessages :=
  stepAction_chat_shape st a
